import Mathlib

/-!
Verification development for the browser dashboard controller
(`static/dashboard.js` of the ezgo repository).

The JavaScript is shallowly embedded: each function that a property talks
about is translated into a pure Lean function over an explicit environment
(the outcomes the browser runtime would deliver: fetch responses, token
refresh results, form/DOM values) and an explicit trace of the side effects
it performs (network requests, timer operations, DOM renders).
-/

set_option maxHeartbeats 1000000

namespace Dashboard

/-! ## Authenticated API client (`makeAuthenticatedApiCall`, lines 79-177)

A call may perform up to two `fetch`es (the original request and the single
retry after a 401) and up to two token refreshes (`getFreshToken`): one when
no token is cached, one after a 401.  The environment lists the outcome of
the n-th refresh and the n-th fetch; the result records the value returned
or the message of the `Error` thrown, together with the ordered trace of
refresh requests and fetch requests (each fetch tagged with the bearer token
it carries in its `Authorization` header). -/

/-- Outcome of one browser `fetch`: an HTTP response (status code, whether
the `content-type` header is present and contains `application/json`, body
text), or a network-level failure carrying the thrown message. -/
inductive FetchOutcome
  | response (status : Nat) (ctJson : Bool) (body : String)
  | netErr (msg : String)
  deriving DecidableEq, Repr

/-- A side effect of the API client: a fetch carrying the given bearer
token, or a call to `getFreshToken`. -/
inductive ApiEvent
  | fetchReq (token : String)
  | refreshReq
  deriving DecidableEq, Repr

/-- Value returned by `makeAuthenticatedApiCall`: `response.json()` when the
content type says JSON, `response.text()` otherwise. -/
inductive ApiValue
  | json (body : String)
  | text (body : String)
  deriving DecidableEq, Repr

/-- Environment of one `makeAuthenticatedApiCall` invocation: the cached
`authToken` global (`none` models JavaScript `null`), and the outcomes the
runtime delivers to the n-th `getFreshToken` call and the n-th `fetch`. -/
structure ApiEnv where
  initialToken : Option String
  refreshOutcome : Nat → Except String String
  fetchOutcome : Nat → FetchOutcome

/-- JavaScript truthiness test `!authToken`: `null` and the empty string are
falsy. -/
def jsFalsyToken : Option String → Bool
  | none => true
  | some s => s = ""

/-- `response.ok`: status in the inclusive range 200-299. -/
def isOkStatus (s : Nat) : Bool := 200 ≤ s && s < 300

/-- Content-type dispatch at the end of a successful call (lines 150-154 and
167-172): JSON body when the `content-type` header contains
`application/json`, raw text otherwise. -/
def decodeBody (ctJson : Bool) (body : String) : ApiValue :=
  if ctJson then .json body else .text body

/-- Result of a call: the returned value or thrown error message, plus the
ordered trace of refreshes and fetches. -/
structure CallResult where
  result : Except String ApiValue
  trace : List ApiEvent
  deriving Repr

/-- Lines 111-118 of `makeAuthenticatedApiCall`: if `!authToken`, call
`getFreshToken` (its error propagates); if the token is still falsy, throw
`Could not obtain authentication token`.  Returns the token (or error), the
trace so far, and the index of the next unused refresh outcome. -/
def ensureToken (env : ApiEnv) : Except String String × List ApiEvent × Nat :=
  if jsFalsyToken env.initialToken then
    match env.refreshOutcome 0 with
    | .error e => (.error e, [.refreshReq], 1)
    | .ok t =>
        if t = "" then (.error "Could not obtain authentication token", [.refreshReq], 1)
        else (.ok t, [.refreshReq], 1)
  else
    (.ok (env.initialToken.getD ""), [], 0)

/-- Lines 109-177: ensure a token, fetch with `Authorization: Bearer tok`;
on a non-ok status equal to 401, refresh once and retry once with the new
token, converting every failure in that block (refresh error, network error,
non-ok retry status) into `Authentication failed - please login again`; on
any other non-ok status throw `HTTP <status>`; on ok decode the body. -/
def makeAuthenticatedApiCall (env : ApiEnv) : CallResult :=
  match ensureToken env with
  | (.error e, tr, _) => ⟨.error e, tr⟩
  | (.ok tok, tr, rIdx) =>
    match env.fetchOutcome 0 with
    | .netErr e => ⟨.error e, tr ++ [.fetchReq tok]⟩
    | .response st ct body =>
      if isOkStatus st then
        ⟨.ok (decodeBody ct body), tr ++ [.fetchReq tok]⟩
      else if st = 401 then
        match env.refreshOutcome rIdx with
        | .error _ =>
            ⟨.error "Authentication failed - please login again",
             tr ++ [.fetchReq tok, .refreshReq]⟩
        | .ok tok2 =>
          match env.fetchOutcome 1 with
          | .netErr _ =>
              ⟨.error "Authentication failed - please login again",
               tr ++ [.fetchReq tok, .refreshReq, .fetchReq tok2]⟩
          | .response st2 ct2 body2 =>
            if isOkStatus st2 then
              ⟨.ok (decodeBody ct2 body2),
               tr ++ [.fetchReq tok, .refreshReq, .fetchReq tok2]⟩
            else
              ⟨.error "Authentication failed - please login again",
               tr ++ [.fetchReq tok, .refreshReq, .fetchReq tok2]⟩
      else
        ⟨.error ("HTTP " ++ toString st), tr ++ [.fetchReq tok]⟩

end Dashboard

/-- C1: if the first fetch of `makeAuthenticatedApiCall` returns HTTP 401,
the client performs exactly one token refresh followed by at most one retry
fetch carrying the freshly obtained token (so no third request is ever
issued); and whenever that single retry fails — the refresh errors, the
retry hits a network error, or the retry status is not ok — the call throws
`Authentication failed - please login again`. -/
theorem claim_C1_single_refresh_retry_on_401 (env : Dashboard.ApiEnv)
    (tok : String) (tr : List Dashboard.ApiEvent) (rIdx : Nat)
    (hTok : Dashboard.ensureToken env = (.ok tok, tr, rIdx))
    (ct : Bool) (body : String)
    (hFetch : env.fetchOutcome 0 = .response 401 ct body) :
    (Dashboard.makeAuthenticatedApiCall env).trace =
      tr ++ [.fetchReq tok, .refreshReq] ++
        (match env.refreshOutcome rIdx with
         | .ok tok2 => [Dashboard.ApiEvent.fetchReq tok2]
         | .error _ => []) ∧
    ((match env.refreshOutcome rIdx with
      | .error _ => True
      | .ok _ =>
        match env.fetchOutcome 1 with
        | .netErr _ => True
        | .response st2 _ _ => Dashboard.isOkStatus st2 = false) →
      (Dashboard.makeAuthenticatedApiCall env).result =
        .error "Authentication failed - please login again") := by
  unfold Dashboard.makeAuthenticatedApiCall
  rw [hTok, hFetch]
  have h401 : Dashboard.isOkStatus 401 = false := by decide
  cases hr : env.refreshOutcome rIdx with
  | error e => simp [h401, hr]
  | ok tok2 =>
      cases hf : env.fetchOutcome 1 with
      | netErr m => simp [h401, hr, hf]
      | response st2 ct2 body2 =>
          by_cases hok : Dashboard.isOkStatus st2 = true
          · simp [h401, hr, hf, hok]
          · simp [h401, Bool.not_eq_true] at hok
            simp [h401, hr, hf, hok]

/-- Concrete instance of C1: cached token `t0`, first fetch answers 401,
refresh yields `t1`, retry answers 403. -/
def envC1 : Dashboard.ApiEnv where
  initialToken := some "t0"
  refreshOutcome := fun _ => .ok "t1"
  fetchOutcome := fun n => if n = 0 then .response 401 false "" else .response 403 false ""

theorem claim_C1_witness :
    (Dashboard.makeAuthenticatedApiCall envC1).trace =
      [.fetchReq "t0", .refreshReq, .fetchReq "t1"] ∧
    (Dashboard.makeAuthenticatedApiCall envC1).result =
      .error "Authentication failed - please login again" := by
  have h := claim_C1_single_refresh_retry_on_401 envC1 "t0" [] 0 rfl false "" rfl
  exact ⟨h.1, h.2 rfl⟩

/-- C2: if the first fetch returns a non-2xx status other than 401, the call
throws `HTTP <status>` and its trace after the token acquisition is exactly
the single original fetch: no token refresh and no retry happen. -/
theorem claim_C2_non401_error_no_retry (env : Dashboard.ApiEnv)
    (tok : String) (tr : List Dashboard.ApiEvent) (rIdx : Nat)
    (hTok : Dashboard.ensureToken env = (.ok tok, tr, rIdx))
    (st : Nat) (ct : Bool) (body : String)
    (hFetch : env.fetchOutcome 0 = .response st ct body)
    (hNotOk : Dashboard.isOkStatus st = false) (hNot401 : st ≠ 401) :
    (Dashboard.makeAuthenticatedApiCall env).result = .error ("HTTP " ++ toString st) ∧
    (Dashboard.makeAuthenticatedApiCall env).trace = tr ++ [.fetchReq tok] := by
  unfold Dashboard.makeAuthenticatedApiCall
  rw [hTok, hFetch]
  simp [hNotOk, hNot401]

/-- Concrete instance of C2: cached token, first fetch answers 500. -/
def envC2 : Dashboard.ApiEnv where
  initialToken := some "t0"
  refreshOutcome := fun _ => .ok "t1"
  fetchOutcome := fun _ => .response 500 false ""

theorem claim_C2_witness :
    (Dashboard.makeAuthenticatedApiCall envC2).result = .error "HTTP 500" ∧
    (Dashboard.makeAuthenticatedApiCall envC2).trace = [.fetchReq "t0"] := by
  have h := claim_C2_non401_error_no_retry envC2 "t0" [] 0 rfl 500 false "" rfl
    (by decide) (by decide)
  exact ⟨h.1, h.2⟩

namespace Dashboard

/-! ## Polling scheduler (`startPeriodicUpdates` / `stopPeriodicUpdates`,
lines 1130-1156)

The global `updateInterval` holds at most one `setInterval` handle.
`startPeriodicUpdates` first clears any stored handle, then registers a new
interval of 30000 ms whose callback fetches the bot status and, when the
current wall-clock minute is a multiple of 5, also reloads the whole
dashboard.  `stopPeriodicUpdates` clears the stored handle and nulls the
variable.  Interval handles are modelled as the naturals a counter hands
out; `live` is the set of intervals currently registered with the runtime. -/

/-- Period passed to `setInterval` at line 1148. -/
def periodicUpdatePeriodMs : Nat := 30000

/-- One network action of the interval callback. -/
inductive TickAction
  | fetchBotStatus
  | fetchDashboard
  deriving DecidableEq, Repr

/-- Body of the interval callback (lines 1135-1147) as the list of actions
it performs, given the value `new Date().getMinutes()` returns: always fetch
the bot status, then reload the dashboard exactly when the minute is a
multiple of 5.  (Both inner calls swallow their own errors, so the callback
always reaches the minute test.) -/
def periodicTick (minute : Nat) : List TickAction :=
  [TickAction.fetchBotStatus] ++
    (if minute % 5 = 0 then [TickAction.fetchDashboard] else [])

/-- Runtime state of the timer registry: the next fresh `setInterval`
handle, the handles currently registered, and the `updateInterval` global. -/
structure TimerWorld where
  nextHandle : Nat
  live : List Nat
  updateInterval : Option Nat
  deriving Repr

/-- Page-load state: no interval registered, `updateInterval = null`. -/
def initialTimerWorld : TimerWorld := ⟨0, [], none⟩

/-- `clearInterval(h)`: deregister `h` from the runtime. -/
def clearIntervalW (w : TimerWorld) (h : Nat) : TimerWorld :=
  { w with live := w.live.erase h }

/-- Lines 1132-1149: `if (updateInterval) clearInterval(updateInterval);`
then `updateInterval = setInterval(..., 30000)`. -/
def startPeriodicUpdates (w : TimerWorld) : TimerWorld :=
  let w1 :=
    match w.updateInterval with
    | some h => clearIntervalW w h
    | none => w
  { nextHandle := w1.nextHandle + 1,
    live := w1.nextHandle :: w1.live,
    updateInterval := some w1.nextHandle }

/-- Lines 1151-1156: clear the stored handle, if any, and null it. -/
def stopPeriodicUpdates (w : TimerWorld) : TimerWorld :=
  match w.updateInterval with
  | some h => { clearIntervalW w h with updateInterval := none }
  | none => w

/-- The operations other code performs on the poller. -/
inductive TimerOp
  | start
  | stop
  deriving DecidableEq, Repr

def applyTimerOp (w : TimerWorld) : TimerOp → TimerWorld
  | TimerOp.start => startPeriodicUpdates w
  | TimerOp.stop => stopPeriodicUpdates w

def runTimerOps (w : TimerWorld) : List TimerOp → TimerWorld
  | [] => w
  | op :: ops => runTimerOps (applyTimerOp w op) ops

/-- Invariant tying `updateInterval` to the registered handles: the stored
handle is exactly the one live interval and is below the freshness
counter. -/
def timerInv (w : TimerWorld) : Prop :=
  match w.updateInterval with
  | some h => w.live = [h] ∧ h < w.nextHandle
  | none => w.live = []

theorem timerInv_start (w : TimerWorld) (hw : timerInv w) :
    timerInv (startPeriodicUpdates w) := by
  cases hu : w.updateInterval with
  | none =>
      simp [timerInv, hu] at hw
      simp [timerInv, startPeriodicUpdates, hu, clearIntervalW, hw]
  | some h =>
      simp [timerInv, hu] at hw
      simp [timerInv, startPeriodicUpdates, hu, clearIntervalW, hw.1, List.erase]

theorem timerInv_stop (w : TimerWorld) (hw : timerInv w) :
    timerInv (stopPeriodicUpdates w) := by
  cases hu : w.updateInterval with
  | none => simpa [timerInv, stopPeriodicUpdates, hu] using hw
  | some h =>
      simp [timerInv, hu] at hw
      simp [timerInv, stopPeriodicUpdates, hu, clearIntervalW, hw.1, List.erase]

theorem timerInv_run (ops : List TimerOp) (w : TimerWorld) (hw : timerInv w) :
    timerInv (runTimerOps w ops) := by
  induction ops generalizing w with
  | nil => simpa [runTimerOps] using hw
  | cons op ops ih =>
      cases op with
      | start => exact ih _ (timerInv_start w hw)
      | stop => exact ih _ (timerInv_stop w hw)

end Dashboard

/-- C3: each tick of the 30000 ms status/dashboard interval fetches the bot
run-state, and additionally reloads the full dashboard payload exactly when
the wall-clock minute read during the tick is a multiple of 5. -/
theorem claim_C3_tick_cadence :
    Dashboard.periodicUpdatePeriodMs = 30 * 1000 ∧
    ∀ minute : Nat,
      Dashboard.TickAction.fetchBotStatus ∈ Dashboard.periodicTick minute ∧
      (Dashboard.TickAction.fetchDashboard ∈ Dashboard.periodicTick minute ↔
        minute % 5 = 0) := by
  refine ⟨rfl, fun minute => ⟨by simp [Dashboard.periodicTick], ?_⟩⟩
  by_cases h : minute % 5 = 0 <;> simp [Dashboard.periodicTick, h]

/-- C4: starting from the page-load state, after any sequence of
`startPeriodicUpdates` / `stopPeriodicUpdates` calls at most one interval
handle is registered; and whenever a timer is already stored,
`startPeriodicUpdates` deregisters that old handle (the new state holds only
the fresh handle). -/
theorem claim_C4_single_live_timer (ops : List Dashboard.TimerOp) (h : Nat)
    (hStored : (Dashboard.runTimerOps Dashboard.initialTimerWorld ops).updateInterval
      = some h) :
    (Dashboard.runTimerOps Dashboard.initialTimerWorld ops).live.length ≤ 1 ∧
    h ∉ (Dashboard.startPeriodicUpdates
          (Dashboard.runTimerOps Dashboard.initialTimerWorld ops)).live ∧
    (Dashboard.startPeriodicUpdates
        (Dashboard.runTimerOps Dashboard.initialTimerWorld ops)).live.length = 1 := by
  have hinv : Dashboard.timerInv (Dashboard.runTimerOps Dashboard.initialTimerWorld ops) :=
    Dashboard.timerInv_run ops Dashboard.initialTimerWorld (by simp [Dashboard.timerInv,
      Dashboard.initialTimerWorld])
  set w := Dashboard.runTimerOps Dashboard.initialTimerWorld ops with hwdef
  rw [Dashboard.timerInv, hStored] at hinv
  refine ⟨by simp [hinv.1], ?_, ?_⟩
  · simp [Dashboard.startPeriodicUpdates, hStored, Dashboard.clearIntervalW, hinv.1,
      List.erase]
    omega
  · simp [Dashboard.startPeriodicUpdates, hStored, Dashboard.clearIntervalW, hinv.1,
      List.erase]

theorem claim_C4_witness :
    (Dashboard.runTimerOps Dashboard.initialTimerWorld
        [Dashboard.TimerOp.start, Dashboard.TimerOp.start]).live.length ≤ 1 ∧
    1 ∉ (Dashboard.startPeriodicUpdates
          (Dashboard.runTimerOps Dashboard.initialTimerWorld
            [Dashboard.TimerOp.start, Dashboard.TimerOp.start])).live ∧
    (Dashboard.startPeriodicUpdates
        (Dashboard.runTimerOps Dashboard.initialTimerWorld
          [Dashboard.TimerOp.start, Dashboard.TimerOp.start])).live.length = 1 :=
  claim_C4_single_live_timer [Dashboard.TimerOp.start, Dashboard.TimerOp.start] 1 rfl

namespace Dashboard

/-! ## Smart timeframe recommendations (`timeframeRecommendations`,
`updateStrategyInfo`, `setupSmartRecommendations`, lines 10-56 and 245-404)

The stop-loss / take-profit numbers are exact decimals, modelled as
rationals.  The reachable UI state is the current value of the
`timeframe-select` element, the two override globals `manualSL` / `manualTP`
and the two numeric input fields; the relevant DOM elements are assumed
present (every guarded `if (element)` in the source succeeds). -/

/-- One entry of the `timeframeRecommendations` table. -/
structure TimeframeRec where
  name : String
  stopLoss : Rat
  takeProfit : Rat
  winRate : Nat
  description : String
  riskLevel : String
  maxHoldTime : String
  deriving Repr

/-- The table at lines 10-56. -/
def timeframeRecommendations : String → Option TimeframeRec
  | "5m" => some ⟨"🏃‍♂️ Hızlı Scalping", 0.3, 0.5, 75,
      "Günde 10-20 trade, güvenli kazanç", "low", "30 dakika"⟩
  | "15m" => some ⟨"📈 Dengeli Swing", 0.8, 1.2, 70,
      "Günde 5-10 trade, istikrarlı kar", "low", "2 saat"⟩
  | "30m" => some ⟨"🎯 Trend Takip", 1.0, 2.0, 65,
      "Güçlü trend\x27lerde büyük kazanç", "medium", "5 saat"⟩
  | "1h" => some ⟨"🏔️ Pozisyon Trading", 1.5, 3.0, 60,
      "Major hareketlerde yüksek kar", "medium", "12 saat"⟩
  | "4h" => some ⟨"🚀 Major Trend", 2.5, 5.0, 55,
      "Büyük trend\x27lerde maksimum kazanç", "high", "48 saat"⟩
  | _ => none

/-- UI state the recommendation logic reads and writes. -/
structure RecState where
  timeframe : String
  manualSL : Bool
  manualTP : Bool
  slValue : Rat
  tpValue : Rat
  deriving Repr

/-- `updateStrategyInfo(timeframe)`, lines 245-295, restricted to the state
above: missing table entry returns immediately (`if (!rec) return`);
otherwise the two independent guarded writes `if (!manualSL) ...value =
rec.stopLoss` and `if (!manualTP) ...value = rec.takeProfit` overwrite each
input field with the recommended value exactly when its override flag is
unset.  The override flags themselves are never written. -/
def updateStrategyInfo (s : RecState) (timeframe : String) : RecState :=
  match timeframeRecommendations timeframe with
  | none => s
  | some rec =>
      { s with
        slValue := if s.manualSL then s.slValue else rec.stopLoss,
        tpValue := if s.manualTP then s.tpValue else rec.takeProfit }

/-- Events wired up by `setupSmartRecommendations` (lines 298-404):
changing the timeframe select, typing in a field, clicking a recommendation
toggle button, clicking a `use recommended` button. -/
inductive RecEvent
  | selectTimeframe (t : String)
  | editSL (v : Rat)
  | editTP (v : Rat)
  | clickSLRecBtn
  | clickTPRecBtn
  | useSLRecommended
  | useTPRecommended
  deriving DecidableEq, Repr

/-- Click handler of `sl-recommendation-btn` (lines 345-364): if the current
timeframe has a table entry, clear `manualSL` and write the recommended
stop-loss into the field; otherwise do nothing. -/
def clickSLRecBtnStep (s : RecState) : RecState :=
  match timeframeRecommendations s.timeframe with
  | some rec => { s with manualSL := false, slValue := rec.stopLoss }
  | none => s

/-- Click handler of `tp-recommendation-btn` (lines 366-386). -/
def clickTPRecBtnStep (s : RecState) : RecState :=
  match timeframeRecommendations s.timeframe with
  | some rec => { s with manualTP := false, tpValue := rec.takeProfit }
  | none => s

/-- One event step.  The `change` listener fires after the select element
already carries the new value; the `input` listeners (lines 310-342) set the
override flag of the edited field; the `use-*-recommended` buttons
(lines 388-403) simply click the corresponding recommendation button. -/
def applyRecEvent (s : RecState) : RecEvent → RecState
  | RecEvent.selectTimeframe t => updateStrategyInfo { s with timeframe := t } t
  | RecEvent.editSL v => { s with slValue := v, manualSL := true }
  | RecEvent.editTP v => { s with tpValue := v, manualTP := true }
  | RecEvent.clickSLRecBtn => clickSLRecBtnStep s
  | RecEvent.clickTPRecBtn => clickTPRecBtnStep s
  | RecEvent.useSLRecommended => clickSLRecBtnStep s
  | RecEvent.useTPRecommended => clickTPRecBtnStep s

theorem updateStrategyInfo_flags (s : RecState) (t : String) :
    (updateStrategyInfo s t).manualSL = s.manualSL ∧
    (updateStrategyInfo s t).manualTP = s.manualTP := by
  unfold updateStrategyInfo
  cases timeframeRecommendations t <;> simp

theorem clickSLRecBtnStep_manualTP (s : RecState) :
    (clickSLRecBtnStep s).manualTP = s.manualTP := by
  unfold clickSLRecBtnStep
  cases timeframeRecommendations s.timeframe <;> simp

theorem clickTPRecBtnStep_manualSL (s : RecState) :
    (clickTPRecBtnStep s).manualSL = s.manualSL := by
  unfold clickTPRecBtnStep
  cases timeframeRecommendations s.timeframe <;> simp

end Dashboard

/-- C5: (1) selecting a timeframe with a table entry writes the recommended
stop-loss (resp. take-profit) into its field exactly when `manualSL` (resp.
`manualTP`) is false — a set flag leaves the field untouched — and never
changes either flag; (2) editing a field sets its flag; (3) a set flag only
ever becomes unset through that field's recommendation toggle or its
`use recommended` button, never through timeframe selection or any other
event. -/
theorem claim_C5_override_flags (s : Dashboard.RecState) :
    (∀ t rec, Dashboard.timeframeRecommendations t = some rec →
      (Dashboard.applyRecEvent s (.selectTimeframe t)).slValue =
        (if s.manualSL then s.slValue else rec.stopLoss) ∧
      (Dashboard.applyRecEvent s (.selectTimeframe t)).tpValue =
        (if s.manualTP then s.tpValue else rec.takeProfit) ∧
      (Dashboard.applyRecEvent s (.selectTimeframe t)).manualSL = s.manualSL ∧
      (Dashboard.applyRecEvent s (.selectTimeframe t)).manualTP = s.manualTP) ∧
    (∀ v, (Dashboard.applyRecEvent s (.editSL v)).manualSL = true ∧
      (Dashboard.applyRecEvent s (.editTP v)).manualTP = true) ∧
    (∀ e, s.manualSL = true → (Dashboard.applyRecEvent s e).manualSL = false →
      e = Dashboard.RecEvent.clickSLRecBtn ∨ e = Dashboard.RecEvent.useSLRecommended) ∧
    (∀ e, s.manualTP = true → (Dashboard.applyRecEvent s e).manualTP = false →
      e = Dashboard.RecEvent.clickTPRecBtn ∨ e = Dashboard.RecEvent.useTPRecommended) := by
  refine ⟨fun t rec hrec => ?_, fun v => ⟨rfl, rfl⟩, fun e hset hclear => ?_,
    fun e hset hclear => ?_⟩
  · simp [Dashboard.applyRecEvent, Dashboard.updateStrategyInfo, hrec]
  · cases e with
    | selectTimeframe t =>
        rw [show Dashboard.applyRecEvent s (.selectTimeframe t) =
            Dashboard.updateStrategyInfo { s with timeframe := t } t from rfl,
          (Dashboard.updateStrategyInfo_flags _ t).1] at hclear
        simp [hset] at hclear
    | editSL v => simp [Dashboard.applyRecEvent] at hclear
    | editTP v => simp [Dashboard.applyRecEvent, hset] at hclear
    | clickSLRecBtn => exact Or.inl rfl
    | clickTPRecBtn =>
        rw [show Dashboard.applyRecEvent s .clickTPRecBtn =
            Dashboard.clickTPRecBtnStep s from rfl,
          Dashboard.clickTPRecBtnStep_manualSL] at hclear
        simp [hset] at hclear
    | useSLRecommended => exact Or.inr rfl
    | useTPRecommended =>
        rw [show Dashboard.applyRecEvent s .useTPRecommended =
            Dashboard.clickTPRecBtnStep s from rfl,
          Dashboard.clickTPRecBtnStep_manualSL] at hclear
        simp [hset] at hclear
  · cases e with
    | selectTimeframe t =>
        rw [show Dashboard.applyRecEvent s (.selectTimeframe t) =
            Dashboard.updateStrategyInfo { s with timeframe := t } t from rfl,
          (Dashboard.updateStrategyInfo_flags _ t).2] at hclear
        simp [hset] at hclear
    | editSL v => simp [Dashboard.applyRecEvent, hset] at hclear
    | editTP v => simp [Dashboard.applyRecEvent] at hclear
    | clickSLRecBtn =>
        rw [show Dashboard.applyRecEvent s .clickSLRecBtn =
            Dashboard.clickSLRecBtnStep s from rfl,
          Dashboard.clickSLRecBtnStep_manualTP] at hclear
        simp [hset] at hclear
    | clickTPRecBtn => exact Or.inl rfl
    | useSLRecommended =>
        rw [show Dashboard.applyRecEvent s .useSLRecommended =
            Dashboard.clickSLRecBtnStep s from rfl,
          Dashboard.clickSLRecBtnStep_manualTP] at hclear
        simp [hset] at hclear
    | useTPRecommended => exact Or.inr rfl

/-- Concrete instance of C5: in a state with `manualSL` set and `manualTP`
unset, selecting `1h` leaves the stop-loss field alone, writes `3.0` into
the take-profit field; editing sets the flag; clicking the stop-loss
recommendation toggle is among the only two events that clear a set
`manualSL`. -/
theorem claim_C5_witness :
    (Dashboard.applyRecEvent ⟨"15m", true, false, 9, 9⟩
        (.selectTimeframe "1h")).slValue = 9 ∧
    (Dashboard.applyRecEvent ⟨"15m", true, false, 9, 9⟩
        (.selectTimeframe "1h")).tpValue = 3.0 ∧
    (Dashboard.applyRecEvent ⟨"15m", true, false, 9, 9⟩
        (.editSL 2)).manualSL = true ∧
    (Dashboard.RecEvent.clickSLRecBtn = Dashboard.RecEvent.clickSLRecBtn ∨
      Dashboard.RecEvent.clickSLRecBtn = Dashboard.RecEvent.useSLRecommended) := by
  have h := claim_C5_override_flags ⟨"15m", true, false, 9, 9⟩
  have h1 := h.1 "1h" _ rfl
  refine ⟨by simpa using h1.1, by simpa using h1.2.1, (h.2.1 2).1, ?_⟩
  exact h.2.2.1 Dashboard.RecEvent.clickSLRecBtn rfl rfl

namespace Dashboard

/-! ## View renderers and data loading (lines 406-591, 713-879)

Each awaited `makeAuthenticatedApiCall(endpoint)` inside these flows is
abstracted to the outcome the endpoint delivers in a `DashEnv`; the
functions return the new render state together with the ordered list of
endpoints they hit.  Render state keeps, per UI section, the list of
payloads handed to its renderer, most recent first, so the head is what the
user currently sees. -/

/-- `profile.subscription`. -/
structure Subscription where
  plan : Option String
  status : Option String
  daysRemaining : Option Int
  deriving DecidableEq, Repr

/-- Payload handed to `updateProfile` (lines 460-494): absent fields are
`none`. -/
structure Profile where
  email : Option String
  subscription : Option Subscription
  deriving DecidableEq, Repr

/-- Payload handed to `updateStats` (lines 573-591). -/
structure Stats where
  totalTrades : Option Nat
  totalPnl : Option Rat
  winRate : Option Rat
  deriving DecidableEq, Repr

/-- Payload handed to `updateAccount` (lines 497-514). -/
structure Account where
  totalBalance : Option Rat
  unrealizedPnl : Option Rat
  deriving DecidableEq, Repr

/-- One element of the `positions` array. -/
structure Position where
  symbol : String
  positionSide : String
  positionAmt : Rat
  entryPrice : Rat
  markPrice : Rat
  unrealizedPnl : Rat
  deriving DecidableEq, Repr

/-- Payload handed to `updateApiStatus` (lines 594-657). -/
structure ApiStatus where
  hasApiKeys : Bool
  isConnected : Bool
  message : Option String
  deriving DecidableEq, Repr

/-- `response.status` of `/api/bot/status` (lines 714-747). -/
structure BotStatusInner where
  is_running : Bool
  status_message : Option String
  deriving DecidableEq, Repr

structure BotStatusPayload where
  status : Option BotStatusInner
  deriving DecidableEq, Repr

/-- What the template at lines 536-566 renders for one position. -/
structure PositionItem where
  symbol : String
  side : String
  sideClass : String
  size : Rat
  entryPrice : Rat
  markPrice : Rat
  pnl : Rat
  pnlClass : String
  deriving DecidableEq, Repr

/-- Content of `positions-container` after `updatePositions`: either the
explicit empty-state block (icon, heading, explanatory text; lines 522-528)
or one rendered item per position. -/
inductive PositionsView
  | emptyState (icon heading text : String)
  | items (rendered : List PositionItem)
  deriving DecidableEq, Repr

/-- The per-position template (lines 532-567). -/
def renderPositionItem (p : Position) : PositionItem :=
  { symbol := p.symbol
    side := p.positionSide
    sideClass := p.positionSide.toLower
    size := |p.positionAmt|
    entryPrice := p.entryPrice
    markPrice := p.markPrice
    pnl := p.unrealizedPnl
    pnlClass := if 0 ≤ p.unrealizedPnl then "profit" else "loss" }

/-- `updatePositions(positions)`, lines 517-570 (container assumed present):
a missing or empty list yields the explicit empty-state block, otherwise one
item per position. -/
def updatePositions (positions : Option (List Position)) : PositionsView :=
  match positions with
  | none =>
      PositionsView.emptyState "fas fa-chart-line" "Açık Pozisyon Yok"
        "Bot başlatıldığında pozisyonlar burada görünecek"
  | some ps =>
      if ps.length = 0 then
        PositionsView.emptyState "fas fa-chart-line" "Açık Pozisyon Yok"
          "Bot başlatıldığında pozisyonlar burada görünecek"
      else
        PositionsView.items (ps.map renderPositionItem)

/-- Render state: per section, the payloads handed to its renderer, most
recent first. -/
structure Rendered where
  profileRenders : List Profile
  statsRenders : List Stats
  accountRenders : List Account
  apiStatusRenders : List ApiStatus
  botStatusRenders : List BotStatusPayload
  positionsView : Option PositionsView
  deriving DecidableEq, Repr

def emptyRendered : Rendered := ⟨[], [], [], [], [], none⟩

def renderProfile (ui : Rendered) (p : Profile) : Rendered :=
  { ui with profileRenders := p :: ui.profileRenders }

def renderStats (ui : Rendered) (s : Stats) : Rendered :=
  { ui with statsRenders := s :: ui.statsRenders }

def renderAccount (ui : Rendered) (a : Account) : Rendered :=
  { ui with accountRenders := a :: ui.accountRenders }

def renderApiStatus (ui : Rendered) (a : ApiStatus) : Rendered :=
  { ui with apiStatusRenders := a :: ui.apiStatusRenders }

def renderBotStatus (ui : Rendered) (b : BotStatusPayload) : Rendered :=
  { ui with botStatusRenders := b :: ui.botStatusRenders }

def renderPositions (ui : Rendered) (ps : Option (List Position)) : Rendered :=
  { ui with positionsView := some (updatePositions ps) }

/-- Payload of the aggregate `/api/user/dashboard-data` endpoint. -/
structure DashboardPayload where
  profile : Profile
  account : Account
  positions : Option (List Position)
  stats : Stats
  api_status : ApiStatus
  deriving DecidableEq, Repr

/-- `{ success, message }` answer of the POST action endpoints. -/
structure ActionResp where
  success : Bool
  message : Option String
  deriving DecidableEq, Repr

/-- Outcomes the backend delivers to each endpoint during one flow
(`.error` models a rejected `await`). -/
structure DashEnv where
  dashboardData : Except String DashboardPayload
  profile : Except String Profile
  stats : Except String Stats
  botStatus : Except String BotStatusPayload
  closePosResp : Except String ActionResp

/-- The hardcoded placeholder profile of line 454. -/
def placeholderProfile : Profile :=
  { email := some "Kullanıcı", subscription := some ⟨none, some "trial", none⟩ }

/-- The hardcoded placeholder stats of line 455. -/
def placeholderStats : Stats :=
  { totalTrades := some 0, totalPnl := some 0, winRate := some 0 }

/-- `loadFallbackData()`, lines 438-457: fetch the profile and render it,
then fetch the stats and render them; any rejection jumps to the catch
block, which renders the hardcoded placeholder profile and stats (so a
failing stats fetch overwrites an already-rendered profile).  Returns the
new render state and the endpoints hit. -/
def loadFallbackData (env : DashEnv) (ui : Rendered) : Rendered × List String :=
  match env.profile with
  | .error _ =>
      (renderStats (renderProfile ui placeholderProfile) placeholderStats,
       ["/api/user/profile"])
  | .ok p =>
      match env.stats with
      | .error _ =>
          (renderStats (renderProfile (renderProfile ui p) placeholderProfile)
            placeholderStats,
           ["/api/user/profile", "/api/user/stats"])
      | .ok st =>
          (renderStats (renderProfile ui p) st,
           ["/api/user/profile", "/api/user/stats"])

/-- `loadAllDashboardData()`, lines 407-435: one aggregate fetch; on success
render profile, account, positions, stats and API status (a connected API
status also fires `loadTradingPairs()`, line 621); on rejection run
`loadFallbackData`, whose own failure is swallowed. -/
def loadAllDashboardData (env : DashEnv) (ui : Rendered) : Rendered × List String :=
  match env.dashboardData with
  | .ok d =>
      (renderApiStatus
        (renderStats
          (renderPositions (renderAccount (renderProfile ui d.profile) d.account)
            d.positions)
          d.stats)
        d.api_status,
       "/api/user/dashboard-data" ::
         (if d.api_status.hasApiKeys && d.api_status.isConnected then
            ["/api/bot/trading-pairs"]
          else []))
  | .error _ =>
      let r := loadFallbackData env ui
      (r.1, "/api/user/dashboard-data" :: r.2)

/-- `getBotStatus()`, lines 714-747: fetch `/api/bot/status` and render it;
errors are caught and only logged. -/
def getBotStatus (env : DashEnv) (ui : Rendered) : Rendered × List String :=
  match env.botStatus with
  | .error _ => (ui, ["/api/bot/status"])
  | .ok b => (renderBotStatus ui b, ["/api/bot/status"])

/-- `closePosition(symbol, positionSide)`, lines 854-879: without a positive
answer to the `confirm` prompt the function returns at once; otherwise it
POSTs `/api/user/close-position` and, on `success`, reloads the dashboard
and the bot status (failures only raise a toast). -/
def closePosition (confirmed : Bool) (symbol positionSide : String)
    (env : DashEnv) (ui : Rendered) : Rendered × List String :=
  if !confirmed then (ui, [])
  else
    match env.closePosResp with
    | .error _ => (ui, ["/api/user/close-position"])
    | .ok r =>
        if r.success then
          let d := loadAllDashboardData env ui
          let b := getBotStatus env d.1
          (b.1, "/api/user/close-position" :: (d.2 ++ b.2))
        else (ui, ["/api/user/close-position"])

/-! ## Bot start configuration (`startBot`, lines 750-812)

The form is read through optional chaining plus `||` defaults; checkbox
reads are `element?.checked || default`.  Numeric fields keep the exact
string that the source passes to `parseInt` / `parseFloat`. -/

/-- JavaScript `x?.value || d` for a text/select input: a missing element or
an empty value falls back to the default. -/
def jsOrStr (v : Option String) (d : String) : String :=
  match v with
  | some s => if s = "" then d else s
  | none => d

/-- JavaScript `x?.checked || d` for a checkbox: only a present, checked box
yields `true` on its own; otherwise the default decides. -/
def jsOrBool (c : Option Bool) (d : Bool) : Bool :=
  if c = some true then true else d

/-- Form state `startBot` reads: `none` models a missing element (for the
checkboxes, `some b` a present box with checked state `b`). -/
structure BotForm where
  symbol : Option String
  timeframe : Option String
  leverage : Option String
  orderSize : Option String
  stopLoss : Option String
  takeProfit : Option String
  maxDailyTrades : Option String
  autoCompound : Option Bool
  manualTrading : Option Bool
  notificationsEnabled : Option Bool
  deriving DecidableEq, Repr

/-- The `botConfig` object of lines 774-785; the five numeric fields hold
the string handed to `parseInt` / `parseFloat`. -/
structure BotConfig where
  symbol : String
  timeframe : String
  leverageStr : String
  orderSizeStr : String
  stopLossStr : String
  takeProfitStr : String
  maxDailyTradesStr : String
  auto_compound : Bool
  manual_trading : Bool
  notifications_enabled : Bool
  deriving DecidableEq, Repr

/-- Assembly of `botConfig` from the form (lines 774-785). -/
def startBotConfig (form : BotForm) : BotConfig :=
  { symbol := jsOrStr form.symbol "BTCUSDT"
    timeframe := jsOrStr form.timeframe "15m"
    leverageStr := jsOrStr form.leverage "10"
    orderSizeStr := jsOrStr form.orderSize "35"
    stopLossStr := jsOrStr form.stopLoss "0.8"
    takeProfitStr := jsOrStr form.takeProfit "1.2"
    maxDailyTradesStr := jsOrStr form.maxDailyTrades "10"
    auto_compound := jsOrBool form.autoCompound false
    manual_trading := jsOrBool form.manualTrading false
    notifications_enabled := jsOrBool form.notificationsEnabled true }

end Dashboard

/-- C6: with the confirmation prompt declined, `closePosition` returns
immediately: it issues no network request and leaves the rendered state
untouched, whatever the arguments and the backend would have answered. -/
theorem claim_C6_unconfirmed_close_is_noop (symbol : String) (positionSide : String)
    (env : Dashboard.DashEnv) (ui : Dashboard.Rendered) :
    Dashboard.closePosition false symbol positionSide env ui = (ui, []) := rfl

/-- C7: `updatePositions` turns a missing or empty positions list into the
explicit empty-state block (icon, heading, explanatory text) rather than an
empty container, and turns a non-empty list into exactly one rendered item
per position. -/
theorem claim_C7_positions_empty_state :
    Dashboard.updatePositions none =
      Dashboard.PositionsView.emptyState "fas fa-chart-line" "Açık Pozisyon Yok"
        "Bot başlatıldığında pozisyonlar burada görünecek" ∧
    Dashboard.updatePositions (some []) =
      Dashboard.PositionsView.emptyState "fas fa-chart-line" "Açık Pozisyon Yok"
        "Bot başlatıldığında pozisyonlar burada görünecek" ∧
    ∀ ps : List Dashboard.Position, ps ≠ [] →
      Dashboard.updatePositions (some ps) =
        Dashboard.PositionsView.items (ps.map Dashboard.renderPositionItem) ∧
      (ps.map Dashboard.renderPositionItem).length = ps.length := by
  refine ⟨rfl, rfl, fun ps hne => ⟨?_, by simp⟩⟩
  unfold Dashboard.updatePositions
  simp [List.length_eq_zero, hne]

/-- Concrete instance of C7: a one-element list renders as one item. -/
theorem claim_C7_witness :
    Dashboard.updatePositions (some [⟨"BTCUSDT", "LONG", 2, 100, 110, 20⟩]) =
      Dashboard.PositionsView.items
        [Dashboard.renderPositionItem ⟨"BTCUSDT", "LONG", 2, 100, 110, 20⟩] ∧
    [Dashboard.renderPositionItem ⟨"BTCUSDT", "LONG", 2, 100, 110, 20⟩].length = 1 :=
  (claim_C7_positions_empty_state.2.2 [⟨"BTCUSDT", "LONG", 2, 100, 110, 20⟩]
    (by simp))

/-- C9: the `notifications_enabled` field of the configuration POSTed by
`startBot` is `true` for every form state — the source computes it as
`notificationsEnabled?.checked || true`, so even an unchecked box yields
`true`. -/
theorem claim_C9_notifications_always_true (form : Dashboard.BotForm) :
    (Dashboard.startBotConfig form).notifications_enabled = true := by
  simp [Dashboard.startBotConfig, Dashboard.jsOrBool]

/-- Environment refuting C8 as stated: the aggregate fetch and the profile
fetch both reject.  The fallback path then stops after the profile fetch, so
only one narrower fetch is attempted, not two. -/
def envC8 : Dashboard.DashEnv where
  dashboardData := .error "boom"
  profile := .error "boom"
  stats := .ok Dashboard.placeholderStats
  botStatus := .error "unused"
  closePosResp := .error "unused"

/-- Counterexample to C8 as stated: with the aggregate fetch and the profile
fetch failing, the initial load issues exactly the aggregate fetch and one
narrower fetch — `/api/user/stats` is never attempted, so the load does not
attempt "exactly two narrower fetches". -/
theorem claim_C8_counterexample :
    (Dashboard.loadAllDashboardData envC8 Dashboard.emptyRendered).2 =
      ["/api/user/dashboard-data", "/api/user/profile"] ∧
    "/api/user/stats" ∉
      (Dashboard.loadAllDashboardData envC8 Dashboard.emptyRendered).2 := by
  constructor
  · rfl
  · intro hmem
    rw [show (Dashboard.loadAllDashboardData envC8 Dashboard.emptyRendered).2 =
      ["/api/user/dashboard-data", "/api/user/profile"] from rfl] at hmem
    simp at hmem

/-- C8 amended: on failure of the aggregate dashboard fetch, the initial
load attempts the profile fetch and — only if that succeeded — the stats
fetch; when both narrower fetches succeed their results are rendered, and
when the fallback path fails at any point (profile fetch rejected, or stats
fetch rejected after a successful profile fetch) the hardcoded placeholders
(profile email `Kullanıcı`, stats all zero) are what is finally rendered,
instead of leaving the UI blank. -/
theorem claim_C8_fallback_amended (env : Dashboard.DashEnv) (ui : Dashboard.Rendered)
    (e : String) (hd : env.dashboardData = .error e) :
    (Dashboard.loadAllDashboardData env ui).2 =
      "/api/user/dashboard-data" :: "/api/user/profile" ::
        (match env.profile with
         | .ok _ => ["/api/user/stats"]
         | .error _ => []) ∧
    ((match env.profile with
      | .error _ => True
      | .ok _ =>
        match env.stats with
        | .error _ => True
        | .ok _ => False) →
      (Dashboard.loadAllDashboardData env ui).1.profileRenders.head? =
        some Dashboard.placeholderProfile ∧
      (Dashboard.loadAllDashboardData env ui).1.statsRenders.head? =
        some Dashboard.placeholderStats) ∧
    (∀ p st, env.profile = .ok p → env.stats = .ok st →
      (Dashboard.loadAllDashboardData env ui).1.profileRenders.head? = some p ∧
      (Dashboard.loadAllDashboardData env ui).1.statsRenders.head? = some st) ∧
    Dashboard.placeholderProfile.email = some "Kullanıcı" ∧
    Dashboard.placeholderStats = ⟨some 0, some 0, some 0⟩ := by
  unfold Dashboard.loadAllDashboardData Dashboard.loadFallbackData
  rw [hd]
  cases hp : env.profile with
  | error ep =>
      refine ⟨rfl, fun _ => ⟨rfl, rfl⟩, fun p st hps hst => ?_, rfl, rfl⟩
      exact absurd hps (by simp)
  | ok p =>
      cases hst : env.stats with
      | error es =>
          refine ⟨rfl, fun _ => ⟨rfl, rfl⟩, fun p1 st1 hps hss => ?_, rfl, rfl⟩
          exact absurd hss (by simp)
      | ok st =>
          refine ⟨rfl, fun hcontra => absurd hcontra (by simp), ?_, rfl, rfl⟩
          intro p1 st1 hps hss
          rw [Except.ok.injEq] at hps hss
          subst hps
          subst hss
          exact ⟨rfl, rfl⟩

/-- Environment instantiating the amended C8: aggregate fetch fails, the
narrower profile fetch succeeds, the stats fetch fails. -/
def envC8w : Dashboard.DashEnv where
  dashboardData := .error "boom"
  profile := .ok { email := some "a@b.c", subscription := none }
  stats := .error "boom"
  botStatus := .error "unused"
  closePosResp := .error "unused"

theorem claim_C8_witness :
    (Dashboard.loadAllDashboardData envC8w Dashboard.emptyRendered).2 =
      ["/api/user/dashboard-data", "/api/user/profile", "/api/user/stats"] ∧
    (Dashboard.loadAllDashboardData envC8w Dashboard.emptyRendered).1.profileRenders.head? =
      some Dashboard.placeholderProfile ∧
    (Dashboard.loadAllDashboardData envC8w Dashboard.emptyRendered).1.statsRenders.head? =
      some Dashboard.placeholderStats := by
  have h := claim_C8_fallback_amended envC8w Dashboard.emptyRendered "boom" rfl
  exact ⟨h.1, (h.2.1 trivial).1, (h.2.1 trivial).2⟩

/-- C10: in the fallback path, when the profile fetch succeeds with `p` but
the stats fetch then rejects, the catch block renders the hardcoded
placeholder profile and stats over everything: the render history shows `p`
painted and then immediately overwritten by the placeholder (`Kullanıcı`,
trial subscription), so the failure of the second fetch discards the
successful result of the first. -/
theorem claim_C10_fallback_discards_profile (env : Dashboard.DashEnv)
    (ui : Dashboard.Rendered) (p : Dashboard.Profile) (e : String)
    (hp : env.profile = .ok p) (hs : env.stats = .error e) :
    (Dashboard.loadFallbackData env ui).1.profileRenders =
      Dashboard.placeholderProfile :: p :: ui.profileRenders ∧
    (Dashboard.loadFallbackData env ui).1.profileRenders.head? =
      some Dashboard.placeholderProfile ∧
    (Dashboard.loadFallbackData env ui).1.statsRenders =
      Dashboard.placeholderStats :: ui.statsRenders ∧
    Dashboard.placeholderProfile =
      { email := some "Kullanıcı", subscription := some ⟨none, some "trial", none⟩ } := by
  unfold Dashboard.loadFallbackData
  rw [hp, hs]
  exact ⟨rfl, rfl, rfl, rfl⟩

/-- Environment instantiating C10: the profile fetch succeeds, then the
stats fetch rejects. -/
def envC10 : Dashboard.DashEnv where
  dashboardData := .error "boom"
  profile := .ok { email := some "x@y.z", subscription := none }
  stats := .error "boom"
  botStatus := .error "unused"
  closePosResp := .error "unused"

theorem claim_C10_witness :
    (Dashboard.loadFallbackData envC10 Dashboard.emptyRendered).1.profileRenders =
      [Dashboard.placeholderProfile, { email := some "x@y.z", subscription := none }] ∧
    (Dashboard.loadFallbackData envC10 Dashboard.emptyRendered).1.statsRenders =
      [Dashboard.placeholderStats] := by
  have h := claim_C10_fallback_discards_profile envC10 Dashboard.emptyRendered
    { email := some "x@y.z", subscription := none } "boom" rfl rfl
  exact ⟨h.1, h.2.2.1⟩
